import Mathlib

/-!
Shallow embedding of `src/Json.js` from the `data-formats` repository: a
bidirectional mapping engine between JSON-shaped plain objects and typed
model instances.  JavaScript values are modelled by `JSVal` (with `undefined`,
`null`, booleans, integers, `NaN`, strings and objects-as-association-lists);
a mapper's read/write functions may throw, which is modelled by the
`Except Unit` codomain; `Format.read` / `Format.write` catch every exception
at their boundary, exactly as the `try`/`catch` blocks in the source do.
Numeric coercion (`+v`) is modelled by `toNumber`, restricted to integer
string literals (the only numeric shapes the repository exercises).
-/

/-- A JavaScript value, as far as the library observes it: `undefined`,
`null`, booleans, numbers (integers plus a separate `NaN`), strings, and
plain objects represented as ordered association lists. -/
inductive JSVal where
  | undefined : JSVal
  | null : JSVal
  | bool : Bool → JSVal
  | num : Int → JSVal
  | nan : JSVal
  | str : String → JSVal
  | obj : List (String × JSVal) → JSVal

/-- The `value === undefined` test. -/
def isUndef : JSVal → Bool
  | .undefined => true
  | _ => false

/-- JavaScript truthiness: `undefined`, `null`, `false`, `0`, `NaN` and the
empty string are falsy; every object is truthy. -/
def jsTruthy : JSVal → Bool
  | .undefined => false
  | .null => false
  | .bool b => b
  | .num n => n != 0
  | .nan => false
  | .str s => s != ""
  | .obj _ => true

/-- Association-list lookup: the value of field `k`, or `undefined` when the
field is missing (JavaScript `o[k]` on a plain object). -/
def objGet (fs : List (String × JSVal)) (k : String) : JSVal :=
  match fs with
  | [] => .undefined
  | (k', v) :: rest => if k' = k then v else objGet rest k

/-- Association-list update: JavaScript `o[k] = v` — replaces the existing
binding in place or appends a new one. -/
def objSet (fs : List (String × JSVal)) (k : String) (v : JSVal) : List (String × JSVal) :=
  match fs with
  | [] => [(k, v)]
  | (k', v') :: rest => if k' = k then (k', v) :: rest else (k', v') :: objSet rest k v

/-- Property access `j[k]` on an arbitrary value: throws (TypeError) on
`null`/`undefined`, looks up the field on an object, and yields `undefined`
on any other primitive. -/
def jsGetE (j : JSVal) (k : String) : Except Unit JSVal :=
  match j with
  | .undefined => .error ()
  | .null => .error ()
  | .obj fs => .ok (objGet fs k)
  | _ => .ok .undefined

/-- Field projection on a value that is expected to be an object;
`undefined` otherwise.  Used to state properties about `read`/`write`
results. -/
def jsField (v : JSVal) (k : String) : JSVal :=
  match v with
  | .obj fs => objGet fs k
  | _ => .undefined

/-- Numeric coercion `+v`, producing an integer or `NaN`.  String parsing is
restricted to integer literals (`""` coerces to `0`), which covers every
numeric string the repository feeds through `number()`. -/
def toNumber : JSVal → JSVal
  | .undefined => .nan
  | .null => .num 0
  | .bool true => .num 1
  | .bool false => .num 0
  | .num n => .num n
  | .nan => .nan
  | .str s => if s = "" then .num 0 else (match s.toInt? with
      | some n => .num n
      | none => .nan)
  | .obj _ => .nan

/-- `Math.max(v, b)` after JavaScript numeric coercion of `v`. -/
def jsMathMax (v : JSVal) (b : Int) : JSVal :=
  match toNumber v with
  | .num n => .num (max n b)
  | _ => .nan

/-- `Math.min(v, b)` after JavaScript numeric coercion of `v`. -/
def jsMathMin (v : JSVal) (b : Int) : JSVal :=
  match toNumber v with
  | .num n => .num (min n b)
  | _ => .nan

/-- `Math.abs(v)` after JavaScript numeric coercion of `v`. -/
def jsMathAbs (v : JSVal) : JSVal :=
  match toNumber v with
  | .num n => .num |n|
  | _ => .nan

/-- A mapper (class `Mapper` in `Json.js`): source field name `name`, target
field name `modelName`, and a read/write function pair.  `write` is optional
because `Format.write` filters on `!!f.write`; every mapper the library
itself constructs carries a write function. -/
structure Mapper where
  name : String
  modelName : String
  read : JSVal → Except Unit JSVal
  write : Option (JSVal → Except Unit JSVal)

/-- Entity class descriptor: `new cl()` produces an instance whose own
fields are `init`. -/
structure ClassDesc where
  className : String
  init : List (String × JSVal)

/-- A `Format`: target entity class, ordered mapper list, and the
`dropUndefined` flag (class-field default `true`). -/
structure Format where
  cl : ClassDesc
  mappers : List Mapper
  dropUndefined : Bool := true

/-- One step of the composite `_read` built in the `Format` constructor:
evaluate the mapper's read on the source, skip the assignment when
`dropUndefined` holds and the value is `undefined`, otherwise assign
`out[f.modelName] = value`.  A thrown exception propagates. -/
def readStep (du : Bool) (source : JSVal) (out : List (String × JSVal)) (m : Mapper) :
    Except Unit (List (String × JSVal)) :=
  match m.read source with
  | .error e => .error e
  | .ok v =>
    if du && isUndef v then .ok out
    else .ok (objSet out m.modelName v)

/-- `Format.read`: falsy source yields `null`; otherwise a fresh instance of
the entity class is populated by the mappers in list order inside a
`try`/`catch`, and any exception makes the call return `undefined`. -/
def Format.read (f : Format) (source : JSVal) : JSVal :=
  if jsTruthy source then
    match f.mappers.foldlM (readStep f.dropUndefined source) f.cl.init with
    | .ok out => .obj out
    | .error _ => .undefined
  else .null

/-- One iteration of the `forEach` in `Format.write`: mappers with no write
function were filtered out; the write function is evaluated once for the
`dropUndefined` check and, when the value is kept, evaluated a second time
for the assignment `out[f.name] = f.write(model)`, exactly as the source
does. -/
def writeApply (du : Bool) (name : String) (model : JSVal) (out : List (String × JSVal))
    (w : JSVal → Except Unit JSVal) : Except Unit (List (String × JSVal)) :=
  match w model with
  | .error e => .error e
  | .ok v =>
    if du && isUndef v then .ok out
    else
      match w model with
      | .error e => .error e
      | .ok v2 => .ok (objSet out name v2)

def writeStep (du : Bool) (model : JSVal) (out : List (String × JSVal)) (m : Mapper) :
    Except Unit (List (String × JSVal)) :=
  match m.write with
  | none => .ok out
  | some w => writeApply du m.name model out w

/-- `Format.write`: falsy model yields `null`; otherwise an empty output
object is populated under each mapper's source name inside a `try`/`catch`,
and any exception makes the call return `undefined`. -/
def Format.write (f : Format) (model : JSVal) : JSVal :=
  if jsTruthy model then
    match f.mappers.foldlM (writeStep f.dropUndefined model) [] with
    | .ok out => .obj out
    | .error _ => .undefined
  else .null

/-- `Format.extend`: a new `Format` on the subtype class whose mapper list is
the extra mappers prepended before the base list
(`new Format( cl, ...[ ...mappers, ...this._mappers ] )`). -/
def Format.extend (f : Format) (cl : ClassDesc) (mappers : List Mapper) : Format :=
  { cl := cl, mappers := mappers ++ f.mappers }

/-- Observable outcome of a call to an overridden `read`/`write` of a
`readonly`/`writeonly` format: whether `console.error` ran, whether the call
threw, and the produced value otherwise. -/
structure OverriddenCall where
  logged : Bool
  threw : Bool
  result : JSVal

/-- The derived format built by `Format.readonly`: an anonymous subclass
instance constructed with the same entity class and mapper list, whose
`write` is overridden. -/
structure ReadonlyFormat where
  cl : ClassDesc
  mappers : List Mapper
  silent : Bool

/-- `Format.readonly(silent = true)`. -/
def Format.readonly (f : Format) (silent : Bool := true) : ReadonlyFormat :=
  { cl := f.cl, mappers := f.mappers, silent := silent }

/-- Inherited `read` of a readonly format (base behaviour, default
`dropUndefined`). -/
def ReadonlyFormat.read (f : ReadonlyFormat) (source : JSVal) : JSVal :=
  Format.read { cl := f.cl, mappers := f.mappers } source

/-- Overridden `write` of a readonly format: always logs an error, throws
exactly when `silent` is false, and otherwise returns `undefined`. -/
def ReadonlyFormat.write (f : ReadonlyFormat) (_model : JSVal) : OverriddenCall :=
  { logged := true, threw := !f.silent, result := .undefined }

/-- The derived format built by `Format.writeonly`: same entity class and
mapper list, `read` overridden. -/
structure WriteonlyFormat where
  cl : ClassDesc
  mappers : List Mapper
  silent : Bool

/-- `Format.writeonly(silent = true)`. -/
def Format.writeonly (f : Format) (silent : Bool := true) : WriteonlyFormat :=
  { cl := f.cl, mappers := f.mappers, silent := silent }

/-- Overridden `read` of a writeonly format: always logs an error, throws
exactly when `silent` is false, and otherwise returns `undefined`. -/
def WriteonlyFormat.read (f : WriteonlyFormat) (_source : JSVal) : OverriddenCall :=
  { logged := true, threw := !f.silent, result := .undefined }

/-- Inherited `write` of a writeonly format (base behaviour, default
`dropUndefined`). -/
def WriteonlyFormat.write (f : WriteonlyFormat) (model : JSVal) : JSVal :=
  Format.write { cl := f.cl, mappers := f.mappers } model

/-- The `json` entry factory: ``json`name` `` yields a mapper whose read is
`j => j[name]` and whose write is `m => m[name]`, with source and target
both named `name`. -/
def jsonMapper (name : String) : Mapper :=
  { name := name, modelName := name,
    read := fun j => jsGetE j name,
    write := some (fun m => jsGetE m name) }

/-- `Mapper.transform(read, write)` of the base class: composes the extra
read step after the existing read and the extra write step after the
existing write (`o => read(this.read(o))`, `m => write(this.write(m))`;
calling a composed write whose inner write function is missing throws). -/
def Mapper.transform (m : Mapper) (r w : JSVal → Except Unit JSVal) : Mapper :=
  { name := m.name, modelName := m.modelName,
    read := fun o => m.read o >>= r,
    write := some (fun mo =>
      match m.write with
      | some wr => wr mo >>= w
      | none => .error ()) }

/-- `Mapper.number()`: promotes to a `NumberMapper` with read
`v => +this.read(v)` and the same write function. -/
def Mapper.number (m : Mapper) : Mapper :=
  { name := m.name, modelName := m.modelName,
    read := fun v => (m.read v).map toNumber,
    write := m.write }

/-- `NumberMapper.transform(read, write)`: composes the read step but keeps
`this.write` — the write argument is discarded by the source. -/
def NumberMapper.transform (m : Mapper) (r : JSVal → Except Unit JSVal)
    (_w : JSVal → Except Unit JSVal) : Mapper :=
  { name := m.name, modelName := m.modelName,
    read := fun other => m.read other >>= r,
    write := m.write }

/-- `NumberMapper.abs()`: read step `v => v ? Math.abs(v) : v` (the source's
numeric parameter is unused there). -/
def NumberMapper.abs (m : Mapper) : Mapper :=
  NumberMapper.transform m
    (fun v => .ok (if jsTruthy v then jsMathAbs v else v))
    (fun v => .ok v)

/-- `NumberMapper.min(m)`: read step `v => v ? Math.max(v, m) : m`. -/
def NumberMapper.min (m : Mapper) (b : Int) : Mapper :=
  NumberMapper.transform m
    (fun v => .ok (if jsTruthy v then jsMathMax v b else .num b))
    (fun v => .ok v)

/-- `NumberMapper.max(m)`: read step `v => v ? Math.min(v, m) : m`. -/
def NumberMapper.max (m : Mapper) (b : Int) : Mapper :=
  NumberMapper.transform m
    (fun v => .ok (if jsTruthy v then jsMathMin v b else .num b))
    (fun v => .ok v)

/-- One iteration of a de-duplicated variant of `Format.write` that computes
each mapper's write result once and assigns that value.  Defined from the
spec's optimization remark, to be compared with `writeStep`. -/
def writeDedupApply (du : Bool) (name : String) (model : JSVal)
    (out : List (String × JSVal)) (w : JSVal → Except Unit JSVal) :
    Except Unit (List (String × JSVal)) :=
  match w model with
  | .error e => .error e
  | .ok v =>
    if du && isUndef v then .ok out
    else .ok (objSet out name v)

def writeDedupStep (du : Bool) (model : JSVal) (out : List (String × JSVal)) (m : Mapper) :
    Except Unit (List (String × JSVal)) :=
  match m.write with
  | none => .ok out
  | some w => writeDedupApply du m.name model out w

/-- De-duplicated variant of `Format.write` (computes each write result
once); the spec claims it is observably equal to `Format.write`. -/
def Format.writeDedup (f : Format) (model : JSVal) : JSVal :=
  if jsTruthy model then
    match f.mappers.foldlM (writeDedupStep f.dropUndefined model) [] with
    | .ok out => .obj out
    | .error _ => .undefined
  else .null

/-- Number of times `Format.write` invokes the mapper's write function
during one `writeStep`: zero for a filtered-out mapper, one when the first
invocation throws or the value is dropped, two otherwise (check plus
assignment). -/
def writeApplyCalls (du : Bool) (model : JSVal) (w : JSVal → Except Unit JSVal) : Nat :=
  match w model with
  | .error _ => 1
  | .ok v => if du && isUndef v then 1 else 2

def writeStepCalls (du : Bool) (model : JSVal) (m : Mapper) : Nat :=
  match m.write with
  | none => 0
  | some w => writeApplyCalls du model w

/-! ### Sample configuration used by witnesses -/

/-- A concrete entity class with no own fields, standing for `class Test`. -/
def clTest : ClassDesc := { className := "Test", init := [] }

/-- A concrete one-mapper format, standing for `new Format( Test, json`a` )`. -/
def fmtSample : Format := { cl := clTest, mappers := [jsonMapper "a"] }

/-- A mapper whose read and write functions always throw. -/
def throwingMapper : Mapper :=
  { name := "t", modelName := "t",
    read := fun _ => .error (), write := some (fun _ => .error ()) }

/-- A concrete format containing a throwing mapper. -/
def fmtThrow : Format := { cl := clTest, mappers := [throwingMapper] }

/-- A concrete entity class standing for the subtype `class Test2`. -/
def clTest2 : ClassDesc := { className := "Test2", init := [] }

/-- A mapper targeting field `x` whose read and write both yield `1`. -/
def mapperX1 : Mapper :=
  { name := "x", modelName := "x",
    read := fun _ => .ok (.num 1), write := some (fun _ => .ok (.num 1)) }

/-- A mapper targeting field `x` whose read and write both yield `2`. -/
def mapperX2 : Mapper :=
  { name := "x", modelName := "x",
    read := fun _ => .ok (.num 2), write := some (fun _ => .ok (.num 2)) }

/-! ### Basic lemmas about the object model -/

theorem objGet_objSet_self (fs : List (String × JSVal)) (k : String) (v : JSVal) :
    objGet (objSet fs k v) k = v := by
  induction fs with
  | nil => simp [objSet, objGet]
  | cons p rest ih =>
    by_cases h : p.1 = k <;> simp [objSet, objGet, h, ih]

theorem objGet_objSet_ne (fs : List (String × JSVal)) (k k' : String) (v : JSVal)
    (h : k' ≠ k) : objGet (objSet fs k' v) k = objGet fs k := by
  induction fs with
  | nil => simp [objSet, objGet, h]
  | cons p rest ih =>
    by_cases hp : p.1 = k' <;> simp [objSet, objGet, hp, ih, h]

/-! ### Lemmas about the read/write folds -/

theorem exceptBind_ok {α β : Type} (v : α) (f : α → Except Unit β) :
    (Except.ok v >>= f : Except Unit β) = f v := rfl

theorem exceptBind_error {α β : Type} (f : α → Except Unit β) :
    ((Except.error () : Except Unit α) >>= f) = .error () := rfl

theorem readStep_ok (du : Bool) (s : JSVal) (out : List (String × JSVal)) (m : Mapper)
    (v : JSVal) (h : m.read s = .ok v) :
    readStep du s out m =
      if du && isUndef v then .ok out else .ok (objSet out m.modelName v) := by
  unfold readStep; rw [h]

theorem readStep_error (du : Bool) (s : JSVal) (out : List (String × JSVal)) (m : Mapper)
    (h : m.read s = .error ()) : readStep du s out m = .error () := by
  unfold readStep; rw [h]

theorem writeStep_none (du : Bool) (model : JSVal) (out : List (String × JSVal)) (m : Mapper)
    (h : m.write = none) : writeStep du model out m = .ok out := by
  unfold writeStep; rw [h]

theorem writeStep_ok (du : Bool) (model : JSVal) (out : List (String × JSVal)) (m : Mapper)
    (w : JSVal → Except Unit JSVal) (v : JSVal) (hw : m.write = some w)
    (h : w model = .ok v) :
    writeStep du model out m =
      if du && isUndef v then .ok out else .ok (objSet out m.name v) := by
  unfold writeStep; rw [hw]
  show writeApply du m.name model out w = _
  unfold writeApply; rw [h]

theorem writeStep_error (du : Bool) (model : JSVal) (out : List (String × JSVal)) (m : Mapper)
    (w : JSVal → Except Unit JSVal) (hw : m.write = some w)
    (h : w model = .error ()) : writeStep du model out m = .error () := by
  unfold writeStep; rw [hw]
  show writeApply du m.name model out w = _
  unfold writeApply; rw [h]

/-- A read fold over mappers none of which targets field `k` leaves field
`k` of the accumulator unchanged. -/
theorem foldlM_readStep_preserve (du : Bool) (s : JSVal) (k : String) :
    ∀ (ms : List Mapper) (out out' : List (String × JSVal)),
      (∀ m ∈ ms, m.modelName ≠ k) →
      List.foldlM (readStep du s) out ms = .ok out' →
      objGet out' k = objGet out k := by
  intro ms
  induction ms with
  | nil =>
    intro out out' _ hf
    simp only [List.foldlM_nil] at hf
    cases hf; rfl
  | cons m rest ih =>
    intro out out' hne hf
    rw [List.foldlM_cons] at hf
    cases hr : m.read s with
    | error e =>
      cases e
      rw [readStep_error du s out m hr, exceptBind_error] at hf
      cases hf
    | ok v =>
      rw [readStep_ok du s out m v hr] at hf
      by_cases hc : (du && isUndef v) = true
      · rw [if_pos hc, exceptBind_ok] at hf
        exact ih out out' (fun x hx => hne x (List.mem_cons_of_mem _ hx)) hf
      · rw [if_neg hc, exceptBind_ok] at hf
        have hrest := ih _ out' (fun x hx => hne x (List.mem_cons_of_mem _ hx)) hf
        rw [hrest, objGet_objSet_ne]
        exact hne m (List.mem_cons_self _ _)

/-- A write fold over mappers none of whose source names is `k` leaves
field `k` of the accumulator unchanged. -/
theorem foldlM_writeStep_preserve (du : Bool) (model : JSVal) (k : String) :
    ∀ (ms : List Mapper) (out out' : List (String × JSVal)),
      (∀ m ∈ ms, m.name ≠ k) →
      List.foldlM (writeStep du model) out ms = .ok out' →
      objGet out' k = objGet out k := by
  intro ms
  induction ms with
  | nil =>
    intro out out' _ hf
    simp only [List.foldlM_nil] at hf
    cases hf; rfl
  | cons m rest ih =>
    intro out out' hne hf
    rw [List.foldlM_cons] at hf
    cases hw : m.write with
    | none =>
      rw [writeStep_none du model out m hw, exceptBind_ok] at hf
      exact ih out out' (fun x hx => hne x (List.mem_cons_of_mem _ hx)) hf
    | some w =>
      cases hv : w model with
      | error e =>
        cases e
        rw [writeStep_error du model out m w hw hv, exceptBind_error] at hf
        cases hf
      | ok v =>
        rw [writeStep_ok du model out m w v hw hv] at hf
        by_cases hc : (du && isUndef v) = true
        · rw [if_pos hc, exceptBind_ok] at hf
          exact ih out out' (fun x hx => hne x (List.mem_cons_of_mem _ hx)) hf
        · rw [if_neg hc, exceptBind_ok] at hf
          have hrest := ih _ out' (fun x hx => hne x (List.mem_cons_of_mem _ hx)) hf
          rw [hrest, objGet_objSet_ne]
          exact hne m (List.mem_cons_self _ _)

/-- Evaluation of the read fold on a two-mapper list with successful reads
whose second value is not dropped. -/
theorem foldlM_readStep_two (du : Bool) (s : JSVal) (init : List (String × JSVal))
    (m1 m2 : Mapper) (v1 v2 : JSVal)
    (h1 : m1.read s = .ok v1) (h2 : m2.read s = .ok v2) (hv2 : isUndef v2 = false) :
    List.foldlM (readStep du s) init [m1, m2] =
      .ok (objSet (if du && isUndef v1 then init else objSet init m1.modelName v1)
        m2.modelName v2) := by
  rw [List.foldlM_cons, readStep_ok du s init m1 v1 h1]
  by_cases hc : (du && isUndef v1) = true
  · rw [if_pos hc, exceptBind_ok, List.foldlM_cons,
      readStep_ok du s init m2 v2 h2, hv2]
    simp [hc]
  · rw [if_neg hc, exceptBind_ok, List.foldlM_cons,
      readStep_ok du s _ m2 v2 h2, hv2]
    simp [hc]

/-- Evaluation of the write fold on a two-mapper list with successful
writes whose second value is not dropped. -/
theorem foldlM_writeStep_two (du : Bool) (model : JSVal) (init : List (String × JSVal))
    (m1 m2 : Mapper) (w1 w2 : JSVal → Except Unit JSVal) (u1 u2 : JSVal)
    (hw1 : m1.write = some w1) (hw2 : m2.write = some w2)
    (h1 : w1 model = .ok u1) (h2 : w2 model = .ok u2) (hu2 : isUndef u2 = false) :
    List.foldlM (writeStep du model) init [m1, m2] =
      .ok (objSet (if du && isUndef u1 then init else objSet init m1.name u1)
        m2.name u2) := by
  rw [List.foldlM_cons, writeStep_ok du model init m1 w1 u1 hw1 h1]
  by_cases hc : (du && isUndef u1) = true
  · rw [if_pos hc, exceptBind_ok, List.foldlM_cons,
      writeStep_ok du model init m2 w2 u2 hw2 h2, hu2]
    simp [hc]
  · rw [if_neg hc, exceptBind_ok, List.foldlM_cons,
      writeStep_ok du model _ m2 w2 u2 hw2 h2, hu2]
    simp [hc]

/-- On a two-mapper format whose mappers share target field `k`, a
successful read ends with the second mapper's value in field `k`. -/
theorem read_two_wins (cl : ClassDesc) (du : Bool) (m1 m2 : Mapper) (s : JSVal)
    (k : String) (v1 v2 : JSVal)
    (_hk1 : m1.modelName = k) (hk2 : m2.modelName = k)
    (h1 : m1.read s = .ok v1) (h2 : m2.read s = .ok v2)
    (hs : jsTruthy s = true) (hv2 : isUndef v2 = false) :
    jsField (Format.read ⟨cl, [m1, m2], du⟩ s) k = v2 := by
  simp only [Format.read, hs, if_true]
  rw [foldlM_readStep_two du s cl.init m1 m2 v1 v2 h1 h2 hv2]
  simp [jsField, hk2, objGet_objSet_self]

/-- On a two-mapper format whose mappers share source field `k`, a
successful write ends with the second mapper's value in field `k`. -/
theorem write_two_wins (cl : ClassDesc) (du : Bool) (m1 m2 : Mapper) (model : JSVal)
    (k : String) (w1 w2 : JSVal → Except Unit JSVal) (u1 u2 : JSVal)
    (_hk1 : m1.name = k) (hk2 : m2.name = k)
    (hw1 : m1.write = some w1) (hw2 : m2.write = some w2)
    (h1 : w1 model = .ok u1) (h2 : w2 model = .ok u2)
    (hm : jsTruthy model = true) (hu2 : isUndef u2 = false) :
    jsField (Format.write ⟨cl, [m1, m2], du⟩ model) k = u2 := by
  simp only [Format.write, hm, if_true]
  rw [foldlM_writeStep_two du model [] m1 m2 w1 w2 u1 u2 hw1 hw2 h1 h2 hu2]
  simp [jsField, hk2, objGet_objSet_self]

/-! ### Claims -/

/-- C2: for every configured Format, `read` and `write` map absent input
(`null` or `undefined`) to `null`, deterministically and without error. -/
theorem c2_absent_input_yields_null (f : Format) :
    f.read .null = .null ∧ f.write .null = .null ∧
    f.read .undefined = .null ∧ f.write .undefined = .null :=
  ⟨rfl, rfl, rfl, rfl⟩

/-- C10: every falsy input — `null`, `undefined`, `0`, the empty string,
`false`, `NaN` — is treated as absent at the public interface: `Format.read`
and `Format.write` both return `null` on it. -/
theorem c10_falsy_input_yields_null (f : Format) (v : JSVal)
    (h : jsTruthy v = false) : f.read v = .null ∧ f.write v = .null := by
  constructor <;> simp [Format.read, Format.write, h]

/-- Witness for C10 at the falsy inputs `0`, `""`, `false` and `NaN` on a
concrete format. -/
theorem c10_falsy_input_yields_null_witness :
    (fmtSample.read (.num 0) = .null ∧ fmtSample.write (.num 0) = .null) ∧
    (fmtSample.read (.str "") = .null ∧ fmtSample.write (.str "") = .null) ∧
    (fmtSample.read (.bool false) = .null ∧ fmtSample.write (.bool false) = .null) ∧
    (fmtSample.read .nan = .null ∧ fmtSample.write .nan = .null) :=
  ⟨c10_falsy_input_yields_null fmtSample (.num 0) rfl,
   c10_falsy_input_yields_null fmtSample (.str "") rfl,
   c10_falsy_input_yields_null fmtSample (.bool false) rfl,
   c10_falsy_input_yields_null fmtSample .nan rfl⟩

/-- C5: `readonly(silent).write` and `writeonly(silent).read` log an error
on every call, throw exactly when `silent` is false, and otherwise produce
`undefined`; the derived formats share the base format's mapper list and
entity class. -/
theorem c5_readonly_writeonly_behaviour (f : Format) (silent : Bool)
    (model source : JSVal) :
    ((f.readonly silent).write model).logged = true ∧
    ((f.readonly silent).write model).threw = !silent ∧
    ((f.readonly silent).write model).result = .undefined ∧
    ((f.writeonly silent).read source).logged = true ∧
    ((f.writeonly silent).read source).threw = !silent ∧
    ((f.writeonly silent).read source).result = .undefined ∧
    (f.readonly silent).mappers = f.mappers ∧
    (f.readonly silent).cl = f.cl ∧
    (f.writeonly silent).mappers = f.mappers ∧
    (f.writeonly silent).cl = f.cl :=
  ⟨rfl, rfl, rfl, rfl, rfl, rfl, rfl, rfl, rfl, rfl⟩

/-- C9: `NumberMapper.transform` discards its write argument and keeps the
existing write function, so no numeric refinement (`abs`, `min`, `max`, or a
further `transform`) ever changes the write direction; `number()` itself
also keeps the write function. -/
theorem c9_numbermapper_write_frozen (m : Mapper)
    (r w : JSVal → Except Unit JSVal) (b : Int) :
    (NumberMapper.transform m r w).write = m.write ∧
    (NumberMapper.abs m).write = m.write ∧
    (NumberMapper.min m b).write = m.write ∧
    (NumberMapper.max m b).write = m.write ∧
    (Mapper.number m).write = m.write :=
  ⟨rfl, rfl, rfl, rfl, rfl⟩

/-- C1: a mapper read function throwing during `Format.read` aborts the
remaining mapper applications (the mappers after the throwing one play no
role), the exception is caught rather than propagated, and the call returns
`undefined`; symmetrically a throwing write function makes `Format.write`
return `undefined`. -/
theorem c1_exception_contained :
    (∀ (f : Format) (source : JSVal) (ms1 : List Mapper) (m : Mapper)
       (ms2 : List Mapper) (acc : List (String × JSVal)),
       f.mappers = ms1 ++ m :: ms2 →
       jsTruthy source = true →
       List.foldlM (readStep f.dropUndefined source) f.cl.init ms1 = .ok acc →
       m.read source = .error () →
       f.read source = .undefined) ∧
    (∀ (f : Format) (model : JSVal) (ms1 : List Mapper) (m : Mapper)
       (ms2 : List Mapper) (acc : List (String × JSVal))
       (w : JSVal → Except Unit JSVal),
       f.mappers = ms1 ++ m :: ms2 →
       jsTruthy model = true →
       List.foldlM (writeStep f.dropUndefined model) [] ms1 = .ok acc →
       m.write = some w →
       w model = .error () →
       f.write model = .undefined) := by
  constructor
  · intro f source ms1 m ms2 acc hm hs hfold hr
    simp only [Format.read, hs, if_true, hm]
    rw [List.foldlM_append, hfold, exceptBind_ok, List.foldlM_cons,
      readStep_error f.dropUndefined source acc m hr, exceptBind_error]
  · intro f model ms1 m ms2 acc w hm hs hfold hw hthrow
    simp only [Format.write, hs, if_true, hm]
    rw [List.foldlM_append, hfold, exceptBind_ok, List.foldlM_cons,
      writeStep_error f.dropUndefined model acc m w hw hthrow, exceptBind_error]

/-- Witness for C1: a one-mapper format whose mapper throws on both
directions returns `undefined` from `read` and from `write`. -/
theorem c1_exception_contained_witness :
    fmtThrow.read (.obj []) = .undefined ∧ fmtThrow.write (.obj []) = .undefined :=
  ⟨c1_exception_contained.1 fmtThrow (.obj []) [] throwingMapper [] clTest.init
      rfl rfl rfl rfl,
   c1_exception_contained.2 fmtThrow (.obj []) [] throwingMapper [] []
      (fun _ => .error ()) rfl rfl rfl rfl rfl⟩

/-- C3: when two mappers of a format share the same target field name, the
later one in the list determines the field's final value in `Format.read`;
when they share the same source field name, the later one determines the
field in `Format.write`. -/
theorem c3_later_mapper_wins :
    (∀ (cl : ClassDesc) (du : Bool) (m1 m2 : Mapper) (s : JSVal) (k : String)
       (v1 v2 : JSVal),
       m1.modelName = k → m2.modelName = k →
       m1.read s = .ok v1 → m2.read s = .ok v2 →
       jsTruthy s = true → isUndef v2 = false →
       jsField (Format.read ⟨cl, [m1, m2], du⟩ s) k = v2) ∧
    (∀ (cl : ClassDesc) (du : Bool) (m1 m2 : Mapper) (model : JSVal) (k : String)
       (w1 w2 : JSVal → Except Unit JSVal) (u1 u2 : JSVal),
       m1.name = k → m2.name = k →
       m1.write = some w1 → m2.write = some w2 →
       w1 model = .ok u1 → w2 model = .ok u2 →
       jsTruthy model = true → isUndef u2 = false →
       jsField (Format.write ⟨cl, [m1, m2], du⟩ model) k = u2) :=
  ⟨fun cl du m1 m2 s k v1 v2 hk1 hk2 h1 h2 hs hv2 =>
     read_two_wins cl du m1 m2 s k v1 v2 hk1 hk2 h1 h2 hs hv2,
   fun cl du m1 m2 model k w1 w2 u1 u2 hk1 hk2 hw1 hw2 h1 h2 hm hu2 =>
     write_two_wins cl du m1 m2 model k w1 w2 u1 u2 hk1 hk2 hw1 hw2 h1 h2 hm hu2⟩

/-- Witness for C3: with two mappers both bound to field `x` producing `1`
and `2`, the later mapper's value `2` is the final one on read and on
write. -/
theorem c3_later_mapper_wins_witness :
    jsField (Format.read ⟨clTest, [mapperX1, mapperX2], true⟩ (.obj [])) "x" = .num 2 ∧
    jsField (Format.write ⟨clTest, [mapperX1, mapperX2], true⟩ (.obj [])) "x" = .num 2 :=
  ⟨c3_later_mapper_wins.1 clTest true mapperX1 mapperX2 (.obj []) "x"
      (.num 1) (.num 2) rfl rfl rfl rfl rfl rfl,
   c3_later_mapper_wins.2 clTest true mapperX1 mapperX2 (.obj []) "x"
      (fun _ => .ok (.num 1)) (fun _ => .ok (.num 2)) (.num 1) (.num 2)
      rfl rfl rfl rfl rfl rfl rfl rfl⟩

/-- C4: `extend` returns a new Format whose entity class is the subtype and
whose mapper list is the extra mappers prepended before the base list;
consequently a base mapper sharing a target (resp. source) field name with
an extension mapper overwrites the extension mapper's value on read
(resp. write). -/
theorem c4_extend_prepends_and_base_wins :
    (∀ (f : Format) (c : ClassDesc) (ms : List Mapper),
       (f.extend c ms).cl = c ∧ (f.extend c ms).mappers = ms ++ f.mappers) ∧
    (∀ (cl c : ClassDesc) (mb me : Mapper) (s : JSVal) (k : String) (ve vb : JSVal),
       mb.modelName = k → me.modelName = k →
       me.read s = .ok ve → mb.read s = .ok vb →
       jsTruthy s = true → isUndef vb = false →
       jsField (((Format.mk cl [mb] true).extend c [me]).read s) k = vb) ∧
    (∀ (cl c : ClassDesc) (mb me : Mapper) (model : JSVal) (k : String)
       (wb we : JSVal → Except Unit JSVal) (ub ue : JSVal),
       mb.name = k → me.name = k →
       mb.write = some wb → me.write = some we →
       we model = .ok ue → wb model = .ok ub →
       jsTruthy model = true → isUndef ub = false →
       jsField (((Format.mk cl [mb] true).extend c [me]).write model) k = ub) :=
  ⟨fun _ _ _ => ⟨rfl, rfl⟩,
   fun _cl c mb me s k ve vb hkb hke he hb hs hvb =>
     read_two_wins c true me mb s k ve vb hke hkb he hb hs hvb,
   fun _cl c mb me model k wb we ub ue hkb hke hwb hwe he hb hm hub =>
     write_two_wins c true me mb model k we wb ue ub hke hkb hwe hwb he hb hm hub⟩

/-- Witness for C4: extending a base format owning field `x` (value `1`)
with an extension mapper for `x` (value `2`) leaves the base mapper in
control of `x` on both read and write. -/
theorem c4_extend_prepends_and_base_wins_witness :
    ((Format.mk clTest [mapperX1] true).extend clTest2 [mapperX2]).mappers =
      [mapperX2] ++ [mapperX1] ∧
    jsField (((Format.mk clTest [mapperX1] true).extend clTest2 [mapperX2]).read
      (.obj [])) "x" = .num 1 ∧
    jsField (((Format.mk clTest [mapperX1] true).extend clTest2 [mapperX2]).write
      (.obj [])) "x" = .num 1 :=
  ⟨(c4_extend_prepends_and_base_wins.1 (Format.mk clTest [mapperX1] true)
      clTest2 [mapperX2]).2,
   c4_extend_prepends_and_base_wins.2.1 clTest clTest2 mapperX1 mapperX2 (.obj [])
      "x" (.num 2) (.num 1) rfl rfl rfl rfl rfl rfl,
   c4_extend_prepends_and_base_wins.2.2 clTest clTest2 mapperX1 mapperX2 (.obj [])
      "x" (fun _ => .ok (.num 1)) (fun _ => .ok (.num 2)) (.num 1) (.num 2)
      rfl rfl rfl rfl rfl rfl rfl rfl⟩

/-- Each iteration of `Format.write` behaves like its de-duplicated
variant: the write function is pure in the embedding, so the second
invocation returns the first invocation's value. -/
theorem writeStep_eq_dedup (du : Bool) (model : JSVal) (out : List (String × JSVal))
    (m : Mapper) : writeStep du model out m = writeDedupStep du model out m := by
  unfold writeStep writeDedupStep
  cases m.write with
  | none => rfl
  | some w =>
    show writeApply du m.name model out w = writeDedupApply du m.name model out w
    unfold writeApply writeDedupApply
    cases w model with
    | error e => rfl
    | ok v => rfl

/-- C8: the write fold of `Format.write` invokes a mapper's write function
twice whenever the value is kept (once for the `dropUndefined` check, once
for the assignment), and `Format.write` is observably equal to the
de-duplicated variant that computes each write result once. -/
theorem c8_write_deduplication :
    (∀ (f : Format) (model : JSVal), f.write model = f.writeDedup model) ∧
    (∀ (du : Bool) (model : JSVal) (m : Mapper) (w : JSVal → Except Unit JSVal)
       (v : JSVal),
       m.write = some w → w model = .ok v → (du && isUndef v) = false →
       writeStepCalls du model m = 2) := by
  constructor
  · intro f model
    unfold Format.write Format.writeDedup
    have hstep : writeStep f.dropUndefined model = writeDedupStep f.dropUndefined model :=
      funext fun out => funext fun m => writeStep_eq_dedup f.dropUndefined model out m
    rw [hstep]
  · intro du model m w v hw hv hc
    unfold writeStepCalls
    rw [hw]
    show writeApplyCalls du model w = 2
    unfold writeApplyCalls
    rw [hv]
    simp [hc]

/-- Witness for C8: on a concrete format and model the write fold invokes
the kept mapper's write function exactly twice. -/
theorem c8_write_deduplication_witness :
    writeStepCalls true (.obj [("a", .num 7)]) (jsonMapper "a") = 2 :=
  c8_write_deduplication.2 true (.obj [("a", .num 7)]) (jsonMapper "a")
    (fun m => jsGetE m "a") (.num 7) rfl rfl rfl

/-- C7: `NumberMapper` clamping. `min(bound)` reads a falsy value as the
bound itself and a non-zero number as the greater of value and bound;
`max(bound)` reads a falsy value as the bound and a non-zero number as the
lesser; `abs()` takes the absolute value of a non-zero number and leaves a
falsy value unchanged.  Concretely, `number().min(5).max(10)` reads `14` as
`10`, `number().abs()` reads `-16` as `16`, and `number().min(5)` reads `0`
as `5`. -/
theorem c7_numbermapper_clamping :
    (∀ (m : Mapper) (b : Int) (s v : JSVal),
       m.read s = .ok v → jsTruthy v = false →
       (NumberMapper.min m b).read s = .ok (.num b)) ∧
    (∀ (m : Mapper) (b : Int) (s : JSVal) (n : Int),
       m.read s = .ok (.num n) → n ≠ 0 →
       (NumberMapper.min m b).read s = .ok (.num (max n b))) ∧
    (∀ (m : Mapper) (b : Int) (s v : JSVal),
       m.read s = .ok v → jsTruthy v = false →
       (NumberMapper.max m b).read s = .ok (.num b)) ∧
    (∀ (m : Mapper) (b : Int) (s : JSVal) (n : Int),
       m.read s = .ok (.num n) → n ≠ 0 →
       (NumberMapper.max m b).read s = .ok (.num (min n b))) ∧
    (∀ (m : Mapper) (s v : JSVal),
       m.read s = .ok v → jsTruthy v = false →
       (NumberMapper.abs m).read s = .ok v) ∧
    (∀ (m : Mapper) (s : JSVal) (n : Int),
       m.read s = .ok (.num n) → n ≠ 0 →
       (NumberMapper.abs m).read s = .ok (.num |n|)) ∧
    (NumberMapper.max (NumberMapper.min (Mapper.number (jsonMapper "b")) 5) 10).read
      (.obj [("b", .num 14)]) = .ok (.num 10) ∧
    (NumberMapper.abs (Mapper.number (jsonMapper "c"))).read
      (.obj [("c", .num (-16))]) = .ok (.num 16) ∧
    (NumberMapper.min (Mapper.number (jsonMapper "b")) 5).read
      (.obj [("b", .num 0)]) = .ok (.num 5) := by
  refine ⟨?_, ?_, ?_, ?_, ?_, ?_, rfl, rfl, rfl⟩
  · intro m b s v h hfalsy
    simp [NumberMapper.min, NumberMapper.transform, h, exceptBind_ok, hfalsy]
  · intro m b s n h hn
    simp [NumberMapper.min, NumberMapper.transform, h, exceptBind_ok, jsTruthy,
      jsMathMax, toNumber, hn]
  · intro m b s v h hfalsy
    simp [NumberMapper.max, NumberMapper.transform, h, exceptBind_ok, hfalsy]
  · intro m b s n h hn
    simp [NumberMapper.max, NumberMapper.transform, h, exceptBind_ok, jsTruthy,
      jsMathMin, toNumber, hn]
  · intro m s v h hfalsy
    simp [NumberMapper.abs, NumberMapper.transform, h, exceptBind_ok, hfalsy]
  · intro m s n h hn
    simp [NumberMapper.abs, NumberMapper.transform, h, exceptBind_ok, jsTruthy,
      jsMathAbs, toNumber, hn]

/-- Witness for C7: the general clamping facts applied at the concrete
mapper `number().min(5)` on the value `14` yield `14` (the greater of `14`
and `5`). -/
theorem c7_numbermapper_clamping_witness :
    (NumberMapper.min (Mapper.number (jsonMapper "b")) 5).read
      (.obj [("b", .num 14)]) = .ok (.num (max 14 5)) :=
  c7_numbermapper_clamping.2.1 (Mapper.number (jsonMapper "b")) 5
    (.obj [("b", .num 14)]) 14 rfl (by decide)

/-- Inversion for a successful `Format.read`: the produced object is the
result of the read fold. -/
theorem read_ok_inv (f : Format) (src model : List (String × JSVal))
    (hr : f.read (.obj src) = .obj model) :
    List.foldlM (readStep f.dropUndefined (.obj src)) f.cl.init f.mappers = .ok model := by
  unfold Format.read at hr
  cases hfold : List.foldlM (readStep f.dropUndefined (.obj src)) f.cl.init f.mappers with
  | ok o =>
    rw [hfold] at hr
    simp only [jsTruthy, if_true] at hr
    injection hr with h
    rw [h]
  | error e =>
    rw [hfold] at hr
    simp [jsTruthy] at hr

/-- Inversion for a successful `Format.write`: the produced object is the
result of the write fold. -/
theorem write_ok_inv (f : Format) (model out : List (String × JSVal))
    (hw : f.write (.obj model) = .obj out) :
    List.foldlM (writeStep f.dropUndefined (.obj model)) [] f.mappers = .ok out := by
  unfold Format.write at hw
  cases hfold : List.foldlM (writeStep f.dropUndefined (.obj model)) [] f.mappers with
  | ok o =>
    rw [hfold] at hw
    simp only [jsTruthy, if_true] at hw
    injection hw with h
    rw [h]
  | error e =>
    rw [hfold] at hw
    simp [jsTruthy] at hw

/-- C6: round-trip: when a field `k` is mapped by a plain identity entry
mapper (``json`k` ``), no later mapper touches `k`, the field is present in
the source, and both conversions succeed, then
`write(read(source))[k] = source[k]`. -/
theorem c6_roundtrip (f : Format) (src model out : List (String × JSVal)) (k : String)
    (ms1 ms2 : List Mapper)
    (hm : f.mappers = ms1 ++ jsonMapper k :: ms2)
    (h2 : ∀ m ∈ ms2, m.modelName ≠ k ∧ m.name ≠ k)
    (hv : isUndef (objGet src k) = false)
    (hr : f.read (.obj src) = .obj model)
    (hw : f.write (.obj model) = .obj out) :
    objGet out k = objGet src k := by
  have hr' := read_ok_inv f src model hr
  have hw' := write_ok_inv f model out hw
  rw [hm, List.foldlM_append] at hr' hw'
  have hmodelk : objGet model k = objGet src k := by
    cases hA : List.foldlM (readStep f.dropUndefined (.obj src)) f.cl.init ms1 with
    | error e =>
      cases e
      rw [hA, exceptBind_error] at hr'
      cases hr'
    | ok o1 =>
      rw [hA, exceptBind_ok, List.foldlM_cons,
        readStep_ok f.dropUndefined (.obj src) o1 (jsonMapper k) (objGet src k) rfl] at hr'
      simp only [hv, Bool.and_false, Bool.false_eq_true, if_false, exceptBind_ok] at hr'
      have hpres := foldlM_readStep_preserve f.dropUndefined (.obj src) k ms2 _ model
        (fun m hm2 => (h2 m hm2).1) hr'
      rw [hpres]
      exact objGet_objSet_self o1 k (objGet src k)
  cases hB : List.foldlM (writeStep f.dropUndefined (.obj model)) [] ms1 with
  | error e =>
    cases e
    rw [hB, exceptBind_error] at hw'
    cases hw'
  | ok p1 =>
    have hwr : jsGetE (.obj model) k = .ok (objGet src k) := by
      simp [jsGetE, hmodelk]
    rw [hB, exceptBind_ok, List.foldlM_cons,
      writeStep_ok f.dropUndefined (.obj model) p1 (jsonMapper k)
        (fun m => jsGetE m k) (objGet src k) rfl hwr] at hw'
    simp only [hv, Bool.and_false, Bool.false_eq_true, if_false, exceptBind_ok] at hw'
    have hpres := foldlM_writeStep_preserve f.dropUndefined (.obj model) k ms2 _ out
      (fun m hm2 => (h2 m hm2).2) hw'
    rw [hpres]
    exact objGet_objSet_self p1 k (objGet src k)

/-- Witness for C6: the one-field format over `a` round-trips the source
value `"x"`. -/
theorem c6_roundtrip_witness :
    objGet [("a", .str "x")] "a" = objGet [("a", .str "x")] "a" ∧
    fmtSample.read (.obj [("a", .str "x")]) = .obj [("a", .str "x")] ∧
    fmtSample.write (.obj [("a", .str "x")]) = .obj [("a", .str "x")] :=
  ⟨c6_roundtrip fmtSample [("a", .str "x")] [("a", .str "x")] [("a", .str "x")]
      "a" [] [] rfl (fun m hm2 => absurd hm2 (List.not_mem_nil m)) rfl rfl rfl,
   rfl, rfl⟩
